import Mathlib

/-!
Verification of the Ribir reactive state-management core: a shallow
embedding of the reader/writer/watcher hierarchy, the `WriteRef`
notify-guard with its batching `Drop`, path-scoped notification
filtering, and the part/split sub-state derivation mechanisms, together
with theorems settling the specification claims about them.

Sources embedded: `core/src/state.rs`, `core/src/state/writer.rs`,
`core/src/state/watcher.rs`, `core/src/state/reader.rs`,
`core/src/state/part_state.rs`, `core/src/state/splitted_state.rs`.
Pieces of the crate that only have their callers in the sources at hand
(`Stateful`, `StateCell`, `ModifyInfo::path_matches`, the `AppCtx`
scheduler) are modelled from the specification; each such definition is
marked `Modelled from the spec`.
-/

namespace Ribir

/-- Effect flags carried by a modification event: the bitflags set with
the DATA and FRAMEWORK bits (`ModifyEffect` in the source). -/
structure ModifyEffect where
  dataBit : Bool
  frameworkBit : Bool
deriving DecidableEq, Repr

/-- The empty effect set. -/
def ModifyEffect.empty : ModifyEffect := ⟨false, false⟩

/-- The DATA flag: the value itself changed. -/
def ModifyEffect.DATA : ModifyEffect := ⟨true, false⟩

/-- The FRAMEWORK flag: framework-only change, no data change. -/
def ModifyEffect.FRAMEWORK : ModifyEffect := ⟨false, true⟩

/-- Both flags set, the effect of a plain `write()`. -/
def ModifyEffect.BOTH : ModifyEffect := ⟨true, true⟩

/-- Bitwise OR of two effect sets (`|` on the bitflags). -/
def ModifyEffect.union (a b : ModifyEffect) : ModifyEffect :=
  ⟨a.dataBit || b.dataBit, a.frameworkBit || b.frameworkBit⟩

/-- Whether no flag is set (`is_empty` on the bitflags). -/
def ModifyEffect.isEmpty (a : ModifyEffect) : Bool :=
  !a.dataBit && !a.frameworkBit

/-- Whether all flags of `b` are present in `a` (`contains` on the
bitflags). -/
def ModifyEffect.containsFx (a b : ModifyEffect) : Bool :=
  (!b.dataBit || a.dataBit) && (!b.frameworkBit || a.frameworkBit)

/-- Clearing the FRAMEWORK bit (`remove(ModifyScope::FRAMEWORK)`). -/
def ModifyEffect.removeFramework (a : ModifyEffect) : ModifyEffect :=
  ⟨a.dataBit, false⟩

/-- Hierarchical path from the root writer to a derived writer
(`PartialPath`, a sequence of owned string segments). -/
abbrev PartialPath := List String

/-- The event payload delivered to subscribers (`ModifyInfo`): the
accumulated effect flags plus the path of the writer that produced it. -/
structure ModifyInfo where
  effect : ModifyEffect
  path : PartialPath
deriving DecidableEq, Repr

/-- Modelled from the spec: `ModifyInfo::path_matches` (its definition
lives in `prior_op.rs`, absent from the sources at hand; only its
callers in `writer.rs` are present).  A subscriber scoped at `sub`
observes an event when `sub` is a prefix of the event's path, and,
unless `includePartial` opted the subscriber into hearing child-scoped
writes, the paths must be exactly equal.  This is the polarity pinned
by spec section 4.5 (default false: the parent does not hear
child-scoped writes) and by the repository test `isolated_writer`. -/
def ModifyInfo.pathMatches (i : ModifyInfo) (sub : PartialPath)
    (includePartial : Bool) : Bool :=
  sub.isPrefixOf i.path && (includePartial || i.path.length == sub.length)

/-- Identifier for a partial writer (`PartialId`): an optional string
segment, `none` being the wildcard `PartialId::any()`. -/
structure PartialId where
  segment : Option String
deriving DecidableEq, Repr

/-- The wildcard partial id, which equals its parent scope
(`PartialId::any`). -/
def PartialId.any : PartialId := ⟨none⟩

/-- The state of one `WriterInfo` notification scope: the batched
modify-effect slot, and the log of `AppCtx::data_changed` scheduler-hook
invocations (each recorded with the path it was called with). -/
structure WriterInfoState where
  batchedModifies : ModifyEffect
  dataChanged : List PartialPath
deriving DecidableEq, Repr

/-- A `WriterInfoState` with an empty batch slot and no pending
scheduler calls: the state at the start of a notification turn. -/
def WriterInfoState.fresh : WriterInfoState := ⟨ModifyEffect.empty, []⟩

/-- The RAII mutation guard `WriteRef`: the borrowed value, the effect
tag to raise if mutated, the modified flag, and the path to attach to
the outgoing event.  The back-reference to the owning `WriterInfo` is
represented by threading a `WriterInfoState` through the operations that
touch it. -/
structure WriteRef (α : Type) where
  value : α
  modifyEffect : ModifyEffect
  modified : Bool
  path : PartialPath
deriving DecidableEq, Repr

/-- The `Drop` impl of `WriteRef` (state.rs lines 229-247): a no-op when
the guard was never mutated; otherwise, when the batch slot is empty and
the guard's effect is non-empty, store the effect in the slot and invoke
the `AppCtx::data_changed` hook with the guard's path; otherwise OR the
effect into the slot without invoking the hook again. -/
def WriteRef.dropRef (g : WriteRef α) (st : WriterInfoState) :
    WriterInfoState :=
  if g.modified = false then st
  else if st.batchedModifies.isEmpty && !g.modifyEffect.isEmpty then
    { batchedModifies := g.modifyEffect,
      dataChanged := st.dataChanged ++ [g.path] }
  else
    { st with batchedModifies := g.modifyEffect.union st.batchedModifies }

/-- Dropping a sequence of guards into the same `WriterInfo`, in order. -/
def dropAll (gs : List (WriteRef α)) (st : WriterInfoState) :
    WriterInfoState :=
  gs.foldl (fun s g => g.dropRef s) st

/-- A `DerefMut` access followed by storing `v`: sets the modified flag
(state.rs lines 220-227). -/
def WriteRef.setValue (g : WriteRef α) (v : α) : WriteRef α :=
  { g with value := v, modified := true }

/-- `WriteRef::silent` (state.rs lines 133-141): consumes the guard,
returning a new guard over the same value with the DATA-only tag and a
cleared modified flag; the consumed guard is dropped at the end of the
call (Rust drops the moved-in `self`), which commits its pending effect
through `dropRef`. -/
def WriteRef.silentRef (g : WriteRef α) (st : WriterInfoState) :
    WriteRef α × WriterInfoState :=
  (⟨g.value, ModifyEffect.DATA, false, g.path⟩, g.dropRef st)

/-- `WriteRef::shallow` (state.rs lines 143-151): as `silentRef` but the
new guard carries the FRAMEWORK-only tag. -/
def WriteRef.shallowRef (g : WriteRef α) (st : WriterInfoState) :
    WriteRef α × WriterInfoState :=
  (⟨g.value, ModifyEffect.FRAMEWORK, false, g.path⟩, g.dropRef st)

/-- `WriteRef::map` (state.rs lines 153-163): projects the guard to a
sub-value; the projected guard starts unmodified and carries the same
effect tag, info and path; the original guard is dropped at the end of
the call, committing any pending effect. -/
def WriteRef.mapRef (g : WriteRef α) (f : α → β) (st : WriterInfoState) :
    WriteRef β × WriterInfoState :=
  (⟨f g.value, g.modifyEffect, false, g.path⟩, g.dropRef st)

/-- `WriteRef::filter_map` (state.rs lines 184-199): when the projection
misses, the original guard is returned unconsumed (and, not being
dropped, commits nothing); when it hits, the projected guard starts
unmodified with the same effect tag, info and path, and the original is
dropped as in `mapRef`. -/
def WriteRef.filterMap (g : WriteRef α) (f : α → Option β)
    (st : WriterInfoState) :
    (Sum (WriteRef β) (WriteRef α)) × WriterInfoState :=
  match f g.value with
  | some u => (Sum.inl ⟨u, g.modifyEffect, false, g.path⟩, g.dropRef st)
  | none => (Sum.inr g, st)

/-- `WriteRef::forget_modifies` (state.rs line 205): clears the modified
flag, returning whether a modification was pending. -/
def WriteRef.forgetModifies (g : WriteRef α) : Bool × WriteRef α :=
  (g.modified, { g with modified := false })

/-- Modelled from the spec: the scheduler drain of one notification
turn (`AppCtx` is not under the sources at hand).  Each recorded
`data_changed` call is answered by emitting one `ModifyInfo` holding the
batch slot's accumulated effect and the recorded path. -/
def drainBatch (st : WriterInfoState) : List ModifyInfo :=
  st.dataChanged.map (fun p => ⟨st.batchedModifies, p⟩)

/-- Delivery of a turn's emitted events to one subscriber, represented
by the filter its `raw_modifies`-derived stream applies. -/
def deliver (events : List ModifyInfo) (sub : ModifyInfo → Bool) :
    List ModifyInfo :=
  events.filter sub

/-- The filter `modifies()` composes on top of a raw stream (state.rs
lines 89-94): keep only events whose effect contains DATA. -/
def modifiesFilter (raw : ModifyInfo → Bool) : ModifyInfo → Bool :=
  fun i => raw i && i.effect.containsFx ModifyEffect.DATA

/-- Modelled from the spec: the root writer's scope path is empty
(`wildcard_scope_path`, returned by the erased writer's `scope_path`,
is defined outside the sources at hand; spec section 3: the root writer
has an empty path). -/
def rootScopePath : PartialPath := []

/-- Modelled from the spec: the root `Stateful` writer (stateful.rs is
not under the sources at hand; only its callers and tests are).  It owns
the backing cell and the root `WriterInfo`, carries the
`include_partial_writers` flag (default false), and sits at the empty
scope path. -/
structure StatefulM (α : Type) where
  cell : α
  includePartial : Bool

/-- Modelled from the spec: a fresh root writer, with
`include_partial_writers` left at its default of `false`. -/
def StatefulM.new (v : α) : StatefulM α := ⟨v, false⟩

/-- Modelled from the spec: `Stateful::write` hands out a guard tagged
with both effect bits at the root path (spec sections 4.4 and 8: a plain
write carries DATA and FRAMEWORK; `silent`/`shallow` re-tag to one bit). -/
def StatefulM.writeGuard (s : StatefulM α) : WriteRef α :=
  ⟨s.cell, ModifyEffect.BOTH, false, rootScopePath⟩

/-- Modelled from the spec: the filter the root writer's `raw_modifies`
stream applies to the events emitted by its notifier — a subscriber at
the root path observes an event when the event's path matches the empty
path under the root's `include_partial_writers` flag (spec section 4.5;
pinned by the tests `isolated_writer` and `split_notify`). -/
def StatefulM.subFilter (s : StatefulM α) : ModifyInfo → Bool :=
  fun i => i.pathMatches rootScopePath s.includePartial

/-- The `PartWriter` shape (writer.rs lines 10-15): an origin writer, a
projection (embedded as a lens), the extended scope path and the
`include_partial` flag.  The origin here is the root writer, the case
every claim scenario exercises. -/
structure PartWriterM (α β : Type) where
  lensGet : α → β
  lensSet : α → β → α
  path : PartialPath
  includePartial : Bool

/-- `part_writer(id, part_map)` (writer.rs lines 214-225 and 350-361):
clone the parent's scope path, append the id's segment when it is not
the wildcard, and start with `include_partial = false`. -/
def mkPartWriter (parentPath : PartialPath) (id : PartialId)
    (get : α → β) (set : α → β → α) : PartWriterM α β :=
  { lensGet := get, lensSet := set,
    path := parentPath ++ (match id.segment with
      | some s => [s]
      | none => []),
    includePartial := false }

/-- `include_partial_writers` on a `PartWriter` (writer.rs lines
363-366): sets the flag and returns the writer. -/
def PartWriterM.setIncludePartial (pw : PartWriterM α β) (b : Bool) :
    PartWriterM α β :=
  { pw with includePartial := b }

/-- `PartWriter::raw_modifies` (writer.rs lines 291-303): subscribes to
the root notifier; when the writer's path is empty the stream is passed
through unfiltered, otherwise events are kept only when their path
matches the writer's path under its `include_partial` flag. -/
def PartWriterM.subFilter (pw : PartWriterM α β) : ModifyInfo → Bool :=
  fun i =>
    if pw.path.isEmpty then true
    else i.pathMatches pw.path pw.includePartial

/-- `PartWriter::write` (writer.rs lines 317-321): delegate to the
origin's `write`, project the guard with `WriteRef::map`, then override
the guard's path with the part-writer's own path. -/
def PartWriterM.write (pw : PartWriterM α β) (s : StatefulM α)
    (st : WriterInfoState) : WriteRef β × WriterInfoState :=
  let pr := WriteRef.mapRef s.writeGuard pw.lensGet st
  ({ pr.1 with path := pw.path }, pr.2)

/-- A reader handle, modelled by the value it reads. -/
structure ReaderM (α : Type) where
  value : α
deriving DecidableEq, Repr

/-- The type-erased `Writer<T>` (writer.rs line 8), in its `Stateful`
variant: the backing value, the live writer-handle count of its scope
(`WriterInfo::writer_count`), and the root `include_partial_writers`
flag. -/
structure ErasedW (α : Type) where
  value : α
  writerCount : Nat
  includePartial : Bool
deriving DecidableEq, Repr

/-- `Writer::into_reader` (writer.rs lines 153-159): unconditionally
returns `Err` carrying the writer back (a `todo` pending the flattened
`PartWriter` refactor), regardless of how many handles are alive. -/
def ErasedW.intoReader (w : ErasedW α) :
    Except (ErasedW α) (ReaderM α) :=
  Except.error w

/-- `Writer::clone_writer` for the `Stateful` variant (writer.rs lines
207-212); the handle-count increment is modelled from the spec
(`Stateful::clone_writer` / `inc_writer` are outside the sources at
hand; spec section 4.3). -/
def ErasedW.cloneWriter (w : ErasedW α) (refCount : Nat) :
    ErasedW α × Nat :=
  (w, refCount + 1)

/-- `Writer::clone_reader` (writer.rs lines 133-137): it simply clones
the writer (`todo: clone only reader after refactored state reader`). -/
def ErasedW.cloneReader (w : ErasedW α) (refCount : Nat) :
    ErasedW α × Nat :=
  w.cloneWriter refCount

/-- `Writer::clone_boxed_reader` (writer.rs lines 128-131): boxes the
result of `clone_reader`; the box is transparent in the model. -/
def ErasedW.cloneBoxedReader (w : ErasedW α) (refCount : Nat) :
    ErasedW α × Nat :=
  w.cloneReader refCount

/-- `Writer::try_into_value` for the `Stateful` variant (writer.rs lines
139-147): delegates to the cell's `try_unwrap`, which succeeds only when
the reference count is one (the pattern is in the sources at hand for
`Reader::try_into_value`, reader.rs lines 131-139; `Stateful`'s own copy
is modelled from spec section 4.1). -/
def ErasedW.tryIntoValue (w : ErasedW α) (refCount : Nat) :
    Except (ErasedW α) α :=
  if refCount = 1 then Except.ok w.value else Except.error w

/-- `include_partial_writers` on the type-erased writer, `Stateful`
variant (writer.rs lines 231-241): delegates and returns a writer with
the flag set. -/
def ErasedW.setIncludePartial (w : ErasedW α) (b : Bool) : ErasedW α :=
  { w with includePartial := b }

/-- A `Box<dyn StateWriter>` handle (state.rs lines 300-369). -/
structure BoxedW (α : Type) where
  value : α
deriving DecidableEq, Repr

/-- `Box<dyn StateWriter>::into_reader` (state.rs lines 319-320):
unconditionally `Err(self)`. -/
def BoxedW.intoReader (w : BoxedW α) : Except (BoxedW α) (ReaderM α) :=
  Except.error w

/-- `Box<dyn StateWriter>::include_partial_writers` (state.rs lines
363-366): the body is `unimplemented!()`, an unconditional panic;
modelled as `none`, never a writer. -/
def BoxedW.setIncludePartial (_ : BoxedW α) (_ : Bool) :
    Option (BoxedW α) :=
  none

/-- The `Watcher` wrapper (watcher.rs lines 50-61): a reader paired with
the modification stream it was handed at construction, the stream being
modelled by the filter it applies to the root notifier's events. -/
structure WatcherM (β : Type) where
  readerValue : β
  modifiesObservable : ModifyInfo → Bool

/-- `Watcher::new` (watcher.rs lines 56-60). -/
def WatcherM.new (v : β) (stream : ModifyInfo → Bool) : WatcherM β :=
  ⟨v, stream⟩

/-- `Watcher::raw_modifies` (watcher.rs lines 100-102): returns the
stored stream unchanged. -/
def WatcherM.rawModifies (w : WatcherM β) : ModifyInfo → Bool :=
  w.modifiesObservable

/-- `Watcher::into_reader` (watcher.rs line 92): unconditionally
`Err(self)`. -/
def WatcherM.intoReader (w : WatcherM β) :
    Except (WatcherM β) (ReaderM β) :=
  Except.error w

/-- An arbitrary watcher-capable state shape, abstracted by what
`part_watcher` consumes from it: its current value and the filter its
`raw_modifies` stream applies to the root notifier's events. -/
structure WatchShape (α : Type) where
  readValue : α
  rawStream : ModifyInfo → Bool

/-- `StateWatcher::part_watcher` (state.rs lines 110-117, watcher.rs
lines 40-47): compose a `part_reader` projection of the value with the
parent's own unfiltered `raw_modifies` stream — no
relevance-to-the-projection filtering is introduced. -/
def partWatcher (s : WatchShape α) (f : α → β) : WatcherM β :=
  WatcherM.new (f s.readValue) s.rawStream

/-- The `WatchShape` of the root writer: its value and the filter of its
`raw_modifies` stream. -/
def StatefulM.watchShape (s : StatefulM α) : WatchShape α :=
  ⟨s.cell, s.subFilter⟩

/-- A `PartWriter` over a type-erased origin, as used by the delegating
`into_reader` (writer.rs lines 278-284). -/
structure PartOfErased (α β : Type) where
  origin : ErasedW α
  lensGet : α → β
  path : PartialPath
  includePartial : Bool

/-- `PartWriter::into_reader` (writer.rs lines 278-284): delegate to the
origin; on success wrap the origin reader in a part reader, on failure
reassemble and return the part writer unchanged. -/
def PartOfErased.intoReader (w : PartOfErased α β) :
    Except (PartOfErased α β) (ReaderM β) :=
  match w.origin.intoReader with
  | Except.ok r => Except.ok ⟨w.lensGet r.value⟩
  | Except.error o => Except.error { w with origin := o }

/-- `Reader::try_into_value` (reader.rs lines 131-139): succeeds exactly
when the reference count of the cell is one, otherwise returns the
reader unchanged. -/
def readerTryIntoValue (r : ReaderM α) (refCount : Nat) :
    Except (ReaderM α) α :=
  if refCount = 1 then Except.ok r.value else Except.error r

end Ribir

namespace RibirSplit

/-!
The earlier design variant kept in `splitted_state.rs`: a
`SplittedWriter` allocates its own fresh `WriterInfo`, decoupling its
notification scope from the origin's while writing through to the
origin's storage.  Its `WriteRef` predates scope paths; its `Drop`
batching (not under the sources at hand) is modelled from spec section
4.3, identical to the later design minus the path payload.
-/

open Ribir (ModifyEffect)

/-- The earlier `WriteRef`: value, effect tag (`modify_scope`), modified
flag; no path. -/
structure WriteRefO (α : Type) where
  value : α
  modifyScope : ModifyEffect
  modified : Bool
deriving DecidableEq, Repr

/-- The state of one `WriterInfo` of the earlier design: the batch slot
and the number of scheduler-hook invocations. -/
structure InfoStateO where
  batchedModifies : ModifyEffect
  dataChangedCount : Nat
deriving DecidableEq, Repr

/-- The empty-slot, no-pending-call state. -/
def InfoStateO.fresh : InfoStateO := ⟨ModifyEffect.empty, 0⟩

/-- Modelled from the spec: the `Drop`/batching of the earlier design's
`WriteRef` (spec section 4.3; the impl is not under the sources at
hand): first non-empty commit fills the slot and calls the scheduler
hook once, later commits OR into the slot. -/
def dropO (g : WriteRefO α) (st : InfoStateO) : InfoStateO :=
  if g.modified = false then st
  else if st.batchedModifies.isEmpty && !g.modifyScope.isEmpty then
    ⟨g.modifyScope, st.dataChangedCount + 1⟩
  else
    { st with batchedModifies := g.modifyScope.union st.batchedModifies }

/-- Modelled from the spec: the scheduler drain of one scope of the
earlier design — one event per recorded hook call, each carrying the
slot's accumulated effect. -/
def drainO (st : InfoStateO) : List ModifyEffect :=
  List.replicate st.dataChangedCount st.batchedModifies

/-- Modelled from the spec: the origin `Stateful::write` of the earlier
design hands out a both-bits guard over the cell value. -/
def originWrite (cell : α) : WriteRefO α :=
  ⟨cell, ModifyEffect.BOTH, false⟩

/-- A `SplittedWriter` (splitted_state.rs lines 5-9): an origin writer
plus a splitter projection, embedded as a lens; its own `WriterInfo` is
threaded separately from the origin's. -/
structure SplittedWriterO (α β : Type) where
  lensGet : α → β
  lensSet : α → β → α

/-- `SplittedWriter::split_ref` (splitted_state.rs lines 102-115): with
the origin's fresh guard in hand, capture its effect tag, then mark the
origin guard modified with the FRAMEWORK bit removed ("the origin mark
as a silent write ... But keep notify in the data level"), and return
the projected split guard, unmodified, carrying the captured tag over
the split's own `WriterInfo`.  The first component is the split guard,
the second the doctored origin guard, which Rust drops when `split_ref`
returns. -/
def splitRef (w : SplittedWriterO α β) (orig : WriteRefO α) :
    WriteRefO β × WriteRefO α :=
  (⟨w.lensGet orig.value, orig.modifyScope, false⟩,
   { orig with
      modifyScope := orig.modifyScope.removeFramework, modified := true })

/-- `SplittedWriter::into_reader` (splitted_state.rs lines 67-69):
succeeds exactly when the split's own `writer_count` is one, otherwise
returns the writer unchanged. -/
def splittedIntoReader (w : SplittedWriterO α β) (writerCount : Nat) :
    Except (SplittedWriterO α β) (α → β) :=
  if writerCount = 1 then Except.ok w.lensGet else Except.error w

/-- One full mutation turn through the split writer: `write()` on the
split calls the origin's `write`, pipes it through `split_ref` (whereby
the doctored origin guard drops into the origin's `WriterInfo`), then
the user stores `v` through the split guard and drops it into the
split's own `WriterInfo`.  Returns the new cell value, the origin's info
state and the split's info state. -/
def splitWriteTurn (w : SplittedWriterO α β) (cell : α) (v : β)
    (oSt sSt : InfoStateO) : α × InfoStateO × InfoStateO :=
  let pr := splitRef w (originWrite cell)
  let oSt2 := dropO pr.2 oSt
  let g2 : WriteRefO β := { pr.1 with value := v, modified := true }
  (w.lensSet cell v, oSt2, dropO g2 sSt)

/-- One full mutation turn through the origin writer: its guard commits
into the origin's own `WriterInfo`; the split's independent
`WriterInfo` is never touched. -/
def originWriteTurn (cell : α) (v : α) (oSt sSt : InfoStateO) :
    α × InfoStateO × InfoStateO :=
  let g2 : WriteRefO α := { originWrite cell with value := v, modified := true }
  (v, dropO g2 oSt, sSt)

/-- The origin-and-split scenario of spec section 8: an `Origin` pair,
split to its second field. -/
def splitScenario : SplittedWriterO (Int × Int) Int :=
  ⟨Prod.snd, fun a b => (a.1, b)⟩

/-- Writing 9 through the split of `splitScenario`, both scopes starting
a fresh notification turn. -/
def splitScenarioRun : (Int × Int) × InfoStateO × InfoStateO :=
  splitWriteTurn splitScenario (1, 2) 9 InfoStateO.fresh InfoStateO.fresh

end RibirSplit

namespace Ribir

/-!
Concrete scenarios used to settle the claims: the sibling part-writer
scenario of spec section 8 (`Stateful::new((1., true))` with part
writers at "1." and "2."), and a retag scenario chaining `silent` into
`shallow`.
-/

/-- The root pair state of the sibling scenario, defaults untouched; the
float payload of the scenario is represented by an integer, the claims
being about notification counts, not arithmetic. -/
def pairRoot : StatefulM (Int × Bool) := StatefulM.new (1, true)

/-- `first = pair.part_writer("1.", |v| &mut v.0)`. -/
def firstW : PartWriterM (Int × Bool) Int :=
  mkPartWriter rootScopePath ⟨some "1."⟩ Prod.fst (fun p v => (v, p.2))

/-- `second = pair.part_writer("2.", |v| &mut v.1)`. -/
def secondW : PartWriterM (Int × Bool) Bool :=
  mkPartWriter rootScopePath ⟨some "2."⟩ Prod.snd (fun p v => (p.1, v))

/-- The events one turn delivers after `*first.write() = 2`. -/
def siblingEvents : List ModifyInfo :=
  let wr := firstW.write pairRoot WriterInfoState.fresh
  drainBatch ((wr.1.setValue 2).dropRef wr.2)

/-- How many events the pair's subscriber observes in that turn. -/
def siblingPairCount : Nat :=
  (deliver siblingEvents (modifiesFilter pairRoot.subFilter)).length

/-- How many events first's subscriber observes in that turn. -/
def siblingFirstCount : Nat :=
  (deliver siblingEvents (modifiesFilter firstW.subFilter)).length

/-- How many events second's subscriber observes in that turn. -/
def siblingSecondCount : Nat :=
  (deliver siblingEvents (modifiesFilter secondW.subFilter)).length

/-- A guard obtained from `silent()` that has since been mutated: tagged
DATA-only, modified. -/
def retagGuard : WriteRef Int := ⟨3, ModifyEffect.DATA, true, []⟩

/-- Re-tagging `retagGuard` through `shallow()` at the start of a fresh
turn: the old DATA effect is flushed into the batch slot at the call. -/
def retagStep : WriteRef Int × WriterInfoState :=
  retagGuard.shallowRef WriterInfoState.fresh

/-- Mutating through the re-tagged FRAMEWORK-only guard and dropping it
within the same turn. -/
def retagFinal : WriterInfoState :=
  (retagStep.1.setValue 4).dropRef retagStep.2

/-- The events that turn delivers. -/
def retagEvents : List ModifyInfo := drainBatch retagFinal

/-- Two modified guards with non-empty effects dropped in one turn, for
exercising the batching algorithm at a concrete input. -/
def batchScenario : List (WriteRef Int) :=
  [⟨1, ModifyEffect.DATA, true, ["a"]⟩,
   ⟨2, ModifyEffect.FRAMEWORK, true, ["b"]⟩]

end Ribir

namespace Ribir

/-! Helper lemmas about the effect flag algebra. -/

theorem ModifyEffect.isEmpty_empty : ModifyEffect.empty.isEmpty = true := rfl

theorem ModifyEffect.union_comm (a b : ModifyEffect) :
    a.union b = b.union a := by
  simp [ModifyEffect.union, Bool.or_comm]

theorem ModifyEffect.union_empty_left (e : ModifyEffect) :
    ModifyEffect.empty.union e = e := by
  cases e
  simp [ModifyEffect.union, ModifyEffect.empty]

theorem ModifyEffect.isEmpty_union (e s : ModifyEffect)
    (h : s.isEmpty = false) : (e.union s).isEmpty = false := by
  cases e with
  | mk ed ef =>
    cases s with
    | mk sd sf =>
      revert h
      cases ed <;> cases ef <;> cases sd <;> cases sf <;> decide

theorem ModifyEffect.containsFx_refl (e : ModifyEffect) :
    e.containsFx e = true := by
  cases e with
  | mk d f => cases d <;> cases f <;> decide

theorem ModifyEffect.containsFx_union_left (e s : ModifyEffect) :
    (e.union s).containsFx e = true := by
  cases e with
  | mk ed ef =>
    cases s with
    | mk sd sf => cases ed <;> cases ef <;> cases sd <;> cases sf <;> decide

theorem foldl_union_flip (l : List ModifyEffect) (s : ModifyEffect) :
    l.foldl (fun a e => e.union a) s = l.foldl ModifyEffect.union s := by
  induction l generalizing s with
  | nil => rfl
  | cons x xs ih =>
    simp only [List.foldl_cons]
    rw [ModifyEffect.union_comm x s]
    exact ih (s.union x)

/-- With a non-empty batch slot, every further modified guard ORs its
effect into the slot without invoking the scheduler hook again. -/
theorem dropAll_nonempty_slot (rest : List (WriteRef α)) :
    ∀ st : WriterInfoState, st.batchedModifies.isEmpty = false →
    (∀ g ∈ rest, g.modified = true) →
    dropAll rest st =
      ⟨(rest.map WriteRef.modifyEffect).foldl (fun a e => e.union a)
        st.batchedModifies, st.dataChanged⟩ := by
  induction rest with
  | nil => intro st _ _; rfl
  | cons g gs ih =>
    intro st h1 h2
    have hg : g.modified = true := h2 g (by simp)
    have hdrop : g.dropRef st =
        ⟨g.modifyEffect.union st.batchedModifies, st.dataChanged⟩ := by
      simp [WriteRef.dropRef, hg, h1]
    have step : dropAll (g :: gs) st = dropAll gs (g.dropRef st) := rfl
    rw [step, hdrop,
      ih ⟨g.modifyEffect.union st.batchedModifies, st.dataChanged⟩
        (ModifyEffect.isEmpty_union _ _ h1) (fun x hx => h2 x (by simp [hx]))]
    simp [List.foldl_cons]

end Ribir

namespace Ribir

/-- Claim C1: for every sequence of N `WriteRef` drops sharing the same
`WriterInfo` within one notification turn (batch slot initially empty),
each guard modified with a non-empty effect, the scheduler hook
`AppCtx::data_changed` is invoked exactly once — by the first drop, with
its path — and afterwards the batch slot holds the bitwise OR of all N
effects. -/
theorem c1_one_scheduler_call_union_effects
    (gs : List (WriteRef Int)) (hne : gs ≠ [])
    (hmods : ∀ g ∈ gs, g.modified = true ∧ g.modifyEffect.isEmpty = false) :
    (dropAll gs WriterInfoState.fresh).dataChanged = [(gs.head hne).path] ∧
    (dropAll gs WriterInfoState.fresh).batchedModifies =
      (gs.map WriteRef.modifyEffect).foldl ModifyEffect.union
        ModifyEffect.empty := by
  cases gs with
  | nil => exact absurd rfl hne
  | cons g rest =>
    have hg := hmods g (by simp)
    have hdrop1 : g.dropRef WriterInfoState.fresh =
        ⟨g.modifyEffect, [g.path]⟩ := by
      simp [WriteRef.dropRef, WriterInfoState.fresh, hg.1, hg.2,
        ModifyEffect.isEmpty_empty]
    have step : dropAll (g :: rest) WriterInfoState.fresh =
        dropAll rest ⟨g.modifyEffect, [g.path]⟩ := by
      show dropAll rest (g.dropRef WriterInfoState.fresh) = _
      rw [hdrop1]
    rw [step, dropAll_nonempty_slot rest ⟨g.modifyEffect, [g.path]⟩ hg.2
      (fun x hx => (hmods x (by simp [hx])).1)]
    refine ⟨rfl, ?_⟩
    rw [foldl_union_flip]
    simp [List.foldl_cons, ModifyEffect.union_empty_left]

/-- Witness for C1 at a concrete two-drop batch. -/
theorem c1_one_scheduler_call_union_effects_witness :
    batchScenario ≠ [] ∧
    (∀ g ∈ batchScenario,
      g.modified = true ∧ g.modifyEffect.isEmpty = false) ∧
    (dropAll batchScenario WriterInfoState.fresh).dataChanged = [["a"]] ∧
    (dropAll batchScenario WriterInfoState.fresh).batchedModifies =
      ModifyEffect.BOTH := by
  have h := c1_one_scheduler_call_union_effects batchScenario
    (by decide) (by decide)
  refine ⟨by decide, by decide, ?_, ?_⟩
  · rw [h.1]; decide
  · rw [h.2]; decide

/-- Claim C4 (amended): `silent()` consumes the guard and returns a new
guard tagged DATA-only with a cleared modified flag (`shallow()`
likewise with FRAMEWORK-only), and when the consumed guard had been
modified its effect under the previous tag is committed to the batch
slot at the moment of the call, before the re-tagged guard can record
anything; however, when the re-tagged guard also commits within the same
turn, the old- and new-tag effects are OR'd into the same batch slot and
delivered in one merged event. -/
theorem c4_silent_shallow_flush_then_retag (g : WriteRef Int)
    (st : WriterInfoState) :
    g.silentRef st =
      (⟨g.value, ModifyEffect.DATA, false, g.path⟩, g.dropRef st) ∧
    g.shallowRef st =
      (⟨g.value, ModifyEffect.FRAMEWORK, false, g.path⟩, g.dropRef st) ∧
    (g.modified = true →
      (g.dropRef st).batchedModifies.containsFx g.modifyEffect = true) := by
  refine ⟨rfl, rfl, fun hm => ?_⟩
  by_cases h2 : (st.batchedModifies.isEmpty && !g.modifyEffect.isEmpty) = true
  · simp [WriteRef.dropRef, hm, h2, ModifyEffect.containsFx_refl]
  · simp [WriteRef.dropRef, hm, h2, ModifyEffect.containsFx_union_left]

/-- Witness for C4 at a concrete modified guard. -/
theorem c4_silent_shallow_flush_then_retag_witness :
    (⟨3, ModifyEffect.BOTH, true, []⟩ : WriteRef Int).modified = true ∧
    ((⟨3, ModifyEffect.BOTH, true, []⟩ : WriteRef Int).dropRef
        WriterInfoState.fresh).batchedModifies.containsFx
      ModifyEffect.BOTH = true := by
  exact ⟨rfl, (c4_silent_shallow_flush_then_retag
    ⟨3, ModifyEffect.BOTH, true, []⟩ WriterInfoState.fresh).2.2 rfl⟩

/-- Claim C4 counterexample: a guard mutated under the DATA-only tag,
re-tagged by `shallow()` and mutated again within the same turn, yields
a single delivered event that carries both the old DATA tag and the new
FRAMEWORK tag — the two tags are merged into one event, so the final
clause of the claim fails. -/
theorem c4_retag_merges_into_one_event :
    retagGuard.modifyEffect = ModifyEffect.DATA ∧
    retagStep.1.modifyEffect = ModifyEffect.FRAMEWORK ∧
    retagStep.2.batchedModifies = ModifyEffect.DATA ∧
    retagEvents = [⟨ModifyEffect.BOTH, []⟩] ∧
    ModifyEffect.BOTH.containsFx ModifyEffect.DATA = true ∧
    ModifyEffect.BOTH.containsFx ModifyEffect.FRAMEWORK = true := by
  decide

/-- Claim C9: `filter_map` on a miss returns the original guard with
value, effect tag, path and modified flag unchanged (and commits
nothing); on a hit it returns a projected guard sharing the same
`WriterInfo`, effect tag and path, starting unmodified. -/
theorem c9_filter_map_atomicity (g : WriteRef Int) (f : Int → Option Int)
    (st : WriterInfoState) :
    (f g.value = none → g.filterMap f st = (Sum.inr g, st)) ∧
    (∀ u, f g.value = some u →
      g.filterMap f st =
        (Sum.inl ⟨u, g.modifyEffect, false, g.path⟩, g.dropRef st)) := by
  refine ⟨fun h => ?_, fun u h => ?_⟩ <;> simp [WriteRef.filterMap, h]

/-- Witness for C9 at a concrete guard, missing and hitting projections. -/
theorem c9_filter_map_atomicity_witness :
    WriteRef.filterMap (⟨3, ModifyEffect.BOTH, true, []⟩ : WriteRef Int)
        (fun _ => (none : Option Int)) WriterInfoState.fresh =
      (Sum.inr ⟨3, ModifyEffect.BOTH, true, []⟩, WriterInfoState.fresh) ∧
    WriteRef.filterMap (⟨3, ModifyEffect.BOTH, true, []⟩ : WriteRef Int)
        (fun n => some n) WriterInfoState.fresh =
      (Sum.inl ⟨3, ModifyEffect.BOTH, false, []⟩,
        WriteRef.dropRef ⟨3, ModifyEffect.BOTH, true, []⟩
          WriterInfoState.fresh) := by
  exact ⟨(c9_filter_map_atomicity _ _ _).1 rfl,
    (c9_filter_map_atomicity _ _ _).2 3 rfl⟩

/-- Claim C10: on the type-erased writer, `clone_reader` (and
`clone_boxed_reader`) is the very same operation as `clone_writer`: the
handed-out "reader" is the writer itself, it increments the scope's live
handle count, and while it is alive `try_into_value` on another handle
fails with the handle returned. -/
theorem c10_clone_reader_is_clone_writer (w : ErasedW Int) (n : Nat) :
    w.cloneReader n = w.cloneWriter n ∧
    w.cloneBoxedReader n = w.cloneWriter n ∧
    (w.cloneReader n).1 = w ∧
    (w.cloneReader n).2 = n + 1 ∧
    (2 ≤ n → w.tryIntoValue n = Except.error w) := by
  refine ⟨rfl, rfl, rfl, rfl, fun h => ?_⟩
  have hn : ¬ n = 1 := by omega
  simp [ErasedW.tryIntoValue, hn]

/-- Witness for C10 with the clone alive (count two). -/
theorem c10_clone_reader_is_clone_writer_witness :
    2 ≤ 2 ∧
    ErasedW.tryIntoValue (⟨5, 1, false⟩ : ErasedW Int) 2 =
      Except.error ⟨5, 1, false⟩ := by
  exact ⟨by decide,
    (c10_clone_reader_is_clone_writer ⟨5, 1, false⟩ 2).2.2.2.2 (by decide)⟩

end Ribir

namespace Ribir

/-- Claim C2 counterexample: writing through a `SplittedWriter` does
produce an event on the origin's stream — `split_ref` marks the origin
guard as a modified data-level write, so after a split mutation the
origin's scope has one pending scheduler call and its drain emits a
DATA event, refuting "mutating S never causes an event on O's
raw_modifies stream". -/
theorem c2_split_notifies_origin :
    RibirSplit.drainO RibirSplit.splitScenarioRun.2.1 =
      [ModifyEffect.DATA] ∧
    RibirSplit.drainO RibirSplit.splitScenarioRun.2.1 ≠ [] := by
  decide

/-- Claim C2 (amended): mutating the origin never produces an event on
the split's stream; mutating the split delivers one BOTH event on the
split's own stream and additionally one DATA-only event (FRAMEWORK bit
removed) on the origin's stream; both handles read the one shared
backing cell, which after the split mutation holds the updated value. -/
theorem c2_split_independence_amended
    (w : RibirSplit.SplittedWriterO (Int × Int) Int)
    (cell v0 : Int × Int) (v : Int)
    (oSt sSt : RibirSplit.InfoStateO) :
    (RibirSplit.originWriteTurn cell v0 oSt sSt).2.2 = sSt ∧
    (RibirSplit.splitWriteTurn w cell v RibirSplit.InfoStateO.fresh
        RibirSplit.InfoStateO.fresh).2.1 = ⟨ModifyEffect.DATA, 1⟩ ∧
    (RibirSplit.splitWriteTurn w cell v RibirSplit.InfoStateO.fresh
        RibirSplit.InfoStateO.fresh).2.2 = ⟨ModifyEffect.BOTH, 1⟩ ∧
    RibirSplit.drainO ⟨ModifyEffect.DATA, 1⟩ = [ModifyEffect.DATA] ∧
    ModifyEffect.DATA.frameworkBit = false ∧
    (RibirSplit.splitWriteTurn w cell v RibirSplit.InfoStateO.fresh
        RibirSplit.InfoStateO.fresh).1 = w.lensSet cell v ∧
    (w.lensGet (w.lensSet cell v) = v →
      w.lensGet (RibirSplit.splitWriteTurn w cell v
        RibirSplit.InfoStateO.fresh RibirSplit.InfoStateO.fresh).1 = v) := by
  exact ⟨rfl, rfl, rfl, rfl, rfl, rfl, fun h => h⟩

/-- Witness for C2 at the concrete split scenario. -/
theorem c2_split_independence_amended_witness :
    RibirSplit.splitScenario.lensGet
      (RibirSplit.splitScenario.lensSet (1, 2) 9) = 9 ∧
    RibirSplit.splitScenario.lensGet RibirSplit.splitScenarioRun.1 = 9 := by
  exact ⟨rfl, (c2_split_independence_amended RibirSplit.splitScenario
    (1, 2) (0, 0) 9 RibirSplit.InfoStateO.fresh
    RibirSplit.InfoStateO.fresh).2.2.2.2.2.2 rfl⟩

/-- Claim C3 counterexample: the type-erased `Writer` with exactly one
live writer handle in its scope still fails `into_reader` (the impl is
an unconditional `Err(self)`), refuting the claimed "succeeds if and
only if exactly one live writer handle exists" for every shape. -/
theorem c3_erased_into_reader_always_fails :
    (⟨5, 1, false⟩ : ErasedW Int).writerCount = 1 ∧
    ErasedW.intoReader (⟨5, 1, false⟩ : ErasedW Int) =
      Except.error ⟨5, 1, false⟩ := by
  exact ⟨rfl, rfl⟩

/-- Claim C3 (amended): only `SplittedWriter::into_reader` implements
the exclusivity test (success exactly when its scope's writer count is
one); the type-erased `Writer`, `Box<dyn StateWriter>` and `Watcher`
unconditionally return `Err`, and `PartWriter` delegates to its origin,
hence also always fails over an erased origin; in every failure the
`Err` carries the original writer back unchanged and fully usable. -/
theorem c3_into_reader_amended :
    (∀ (w : RibirSplit.SplittedWriterO (Int × Int) Int) (n : Nat),
      (n = 1 →
        RibirSplit.splittedIntoReader w n = Except.ok w.lensGet) ∧
      (n ≠ 1 →
        RibirSplit.splittedIntoReader w n = Except.error w)) ∧
    (∀ w : ErasedW Int, w.intoReader = Except.error w) ∧
    (∀ w : BoxedW Int, w.intoReader = Except.error w) ∧
    (∀ w : WatcherM Int, w.intoReader = Except.error w) ∧
    (∀ w : PartOfErased Int Int, w.intoReader = Except.error w) := by
  refine ⟨fun w n => ⟨fun h => ?_, fun h => ?_⟩,
    fun _ => rfl, fun _ => rfl, fun _ => rfl, fun _ => rfl⟩
  · simp [RibirSplit.splittedIntoReader, h]
  · simp [RibirSplit.splittedIntoReader, h]

/-- Witness for C3 at writer counts one and two. -/
theorem c3_into_reader_amended_witness :
    RibirSplit.splittedIntoReader RibirSplit.splitScenario 1 =
      Except.ok RibirSplit.splitScenario.lensGet ∧
    RibirSplit.splittedIntoReader RibirSplit.splitScenario 2 =
      Except.error RibirSplit.splitScenario ∧
    ErasedW.intoReader (⟨7, 2, false⟩ : ErasedW Int) =
      Except.error ⟨7, 2, false⟩ := by
  exact ⟨(c3_into_reader_amended.1 RibirSplit.splitScenario 1).1 rfl,
    (c3_into_reader_amended.1 RibirSplit.splitScenario 2).2 (by decide),
    c3_into_reader_amended.2.1 ⟨7, 2, false⟩⟩

/-- Claim C5 counterexample: in the sibling scenario with defaults, a
single write through `first` delivers zero events to the pair's
subscriber, not the claimed one — the root's stream filters out the
child-scoped path "1." when `include_partial_writers` is false. -/
theorem c5_pair_subscriber_hears_nothing :
    siblingPairCount = 0 ∧ ¬ siblingPairCount = 1 := by
  decide

/-- Claim C5 (amended): in the sibling scenario with
`include_partial_writers` left at its default, a single write through
`first` delivers exactly one notification to first's subscriber and
none to the pair's subscriber or to second's subscriber; the one turn
emits exactly one event, tagged BOTH at path "1.". -/
theorem c5_sibling_isolation_amended :
    siblingFirstCount = 1 ∧ siblingPairCount = 0 ∧
    siblingSecondCount = 0 ∧
    siblingEvents = [⟨ModifyEffect.BOTH, ["1."]⟩] := by
  decide

/-- Claim C6 counterexample: `include_partial_writers` on a
`Box<dyn StateWriter>` never completes normally — its body is
`unimplemented!()`, a panic, modelled as `none`. -/
theorem c6_boxed_include_partial_panics :
    BoxedW.setIncludePartial (⟨5⟩ : BoxedW Int) true = none := by
  exact rfl

/-- Claim C6 (amended): the recoverable refusals of the writer hierarchy
return the caller's handle unchanged — `into_reader` refusals return the
writer, `try_into_value` refusals return the reader, `filter_map` misses
return the guard — and `include_partial_writers` on the type-erased
`Writer` completes normally with the flag set, but on a
`Box<dyn StateWriter>` it panics (`unimplemented!()`), an exception the
claim's list is missing. -/
theorem c6_failure_semantics_amended :
    (∀ (w : BoxedW Int) (b : Bool), BoxedW.setIncludePartial w b = none) ∧
    (∀ (w : ErasedW Int) (b : Bool),
      (w.setIncludePartial b).value = w.value ∧
      (w.setIncludePartial b).includePartial = b) ∧
    (∀ (r : ReaderM Int) (n : Nat),
      n ≠ 1 → readerTryIntoValue r n = Except.error r) ∧
    (∀ (g : WriteRef Int) (f : Int → Option Int) (st : WriterInfoState),
      f g.value = none → g.filterMap f st = (Sum.inr g, st)) ∧
    (∀ w : BoxedW Int, w.intoReader = Except.error w) := by
  refine ⟨fun _ _ => rfl, fun w b => ⟨rfl, rfl⟩,
    fun r n h => ?_, fun g f st h => ?_, fun _ => rfl⟩
  · simp [readerTryIntoValue, h]
  · simp [WriteRef.filterMap, h]

/-- Witness for C6 at concrete refusals. -/
theorem c6_failure_semantics_amended_witness :
    readerTryIntoValue (⟨3⟩ : ReaderM Int) 2 = Except.error ⟨3⟩ ∧
    WriteRef.filterMap (⟨3, ModifyEffect.DATA, false, []⟩ : WriteRef Int)
        (fun _ => (none : Option Int)) WriterInfoState.fresh =
      (Sum.inr ⟨3, ModifyEffect.DATA, false, []⟩, WriterInfoState.fresh) := by
  exact ⟨c6_failure_semantics_amended.2.2.1 ⟨3⟩ 2 (by decide),
    c6_failure_semantics_amended.2.2.2.1 ⟨3, ModifyEffect.DATA, false, []⟩
      (fun _ => (none : Option Int)) WriterInfoState.fresh rfl⟩

/-- Claim C7: `part_watcher(map)` stores the parent's own `raw_modifies`
stream unchanged, so the part-watcher's subscribers receive exactly the
parent's raw events — no relevance-to-the-projection filtering; in
particular over a root that includes partial writers, every event is
delivered whatever its path. -/
theorem c7_part_watcher_unfiltered (s : WatchShape Int) (f : Int → Int)
    (events : List ModifyInfo) (i : ModifyInfo) :
    (partWatcher s f).rawModifies = s.rawStream ∧
    deliver events ((partWatcher s f).rawModifies) =
      deliver events s.rawStream ∧
    (partWatcher (StatefulM.mk 0 true).watchShape f).rawModifies i =
      true := by
  refine ⟨rfl, rfl, ?_⟩
  simp [partWatcher, WatcherM.rawModifies, WatcherM.new,
    StatefulM.watchShape, StatefulM.subFilter, ModifyInfo.pathMatches,
    rootScopePath, List.isPrefixOf]

/-- Claim C8: the root writer's scope path is empty; `part_writer` with
a non-wildcard id appends exactly one segment to the parent's path, and
with the wildcard `PartialId::any()` leaves it unchanged; a part-writer
whose resulting path is empty applies no path filtering at all to the
origin's raw event stream. -/
theorem c8_path_construction (parent : PartialPath) (s : String)
    (g : (Int × Bool) → Int) (stt : (Int × Bool) → Int → (Int × Bool))
    (pw : PartWriterM (Int × Bool) Int) (i : ModifyInfo) :
    rootScopePath = [] ∧
    (mkPartWriter parent ⟨some s⟩ g stt).path = parent ++ [s] ∧
    (mkPartWriter parent PartialId.any g stt).path = parent ∧
    (pw.path = [] → pw.subFilter i = true) := by
  refine ⟨rfl, rfl, by simp [mkPartWriter, PartialId.any],
    fun h => by simp [PartWriterM.subFilter, h]⟩

/-- Witness for C8: the scenario's first part-writer has the one-segment
path, and a wildcard part-writer of the root is transparent. -/
theorem c8_path_construction_witness :
    firstW.path = ["1."] ∧
    (mkPartWriter rootScopePath PartialId.any Prod.fst
        (fun (p : Int × Bool) v => (v, p.2))).subFilter
      ⟨ModifyEffect.DATA, ["x"]⟩ = true := by
  have h := c8_path_construction rootScopePath "1." Prod.fst
    (fun p v => (v, p.2))
    (mkPartWriter rootScopePath PartialId.any Prod.fst
      (fun p v => (v, p.2))) ⟨ModifyEffect.DATA, ["x"]⟩
  exact ⟨rfl, h.2.2.2 (h.2.2.1.trans h.1)⟩

end Ribir
